import Mathlib

/-!
Verification of the scheduling and orchestration core of a news-digest
application.

The Python source is shallowly embedded.  Each Lean definition mirrors one
Python function or method; the file says next to every definition which
source function it embeds.  Modelling conventions:

* Python floats are modelled by exact rationals (`ℚ`);
* `datetime.now()` is modelled by an explicit `now : Nat` tick argument;
* the database session is an explicit list of records, and committing is
  returning the updated list;
* Python dicts keyed by strings are association lists with first-match
  lookup and in-place overwrite;
* log lines and `asyncio.sleep` calls that the specification talks about
  are surfaced as explicit counters / event values in the results;
* exceptions raised by collaborators (parsers, the digest creator, the
  outbound publisher) are modelled by explicit behaviour environments.
-/

/-- One row of the `channel_sources` table (`app/database/models.py`,
class `ChannelSource`): identity, activity flag, statistics counters and
the running average interest score (a Python float, modelled by `ℚ`). -/
structure ChannelSource where
  channel_id : String
  source_type : String
  is_active : Bool
  news_collected : Nat
  success_count : Nat
  failure_count : Nat
  avg_interest_score : ℚ
  last_processed : Option Nat
  deriving Repr, DecidableEq

/-- The SQLAlchemy filter of `DatabaseManager.update_channel_result`
(`app/database/db_utils.py` lines 744-749): a row matches when both
`channel_id` and `source_type` are equal. -/
def channelMatches (channel_id source_type : String) (ch : ChannelSource) : Bool :=
  (ch.channel_id == channel_id) && (ch.source_type == source_type)

/-- The per-row mutation of `DatabaseManager.update_channel_result`
(`app/database/db_utils.py` lines 755-769), applied once the row is found:
stamp `last_processed`; on success bump `success_count` and
`news_collected` and, only when `news_count > 0 and avg_score > 0`,
recompute the weighted average; on failure bump `failure_count` and
deactivate at the threshold 3.  The second component counts the
"channel deactivated" warnings emitted (the `logger.warning` on line 769). -/
def applyChannelResult (ch : ChannelSource) (success : Bool) (news_count : Nat)
    (avg_score : ℚ) (now : Nat) : ChannelSource × Nat :=
  let ch1 : ChannelSource := { ch with last_processed := some now }
  if success then
    let ch2 : ChannelSource :=
      { ch1 with success_count := ch1.success_count + 1,
                 news_collected := ch1.news_collected + news_count }
    if 0 < news_count ∧ 0 < avg_score then
      let total_score : ℚ :=
        ch2.avg_interest_score * (((ch2.news_collected - news_count : ℕ)) : ℚ)
          + avg_score * (news_count : ℚ)
      ({ ch2 with avg_interest_score := total_score / (ch2.news_collected : ℚ) }, 0)
    else
      (ch2, 0)
  else
    let ch2 : ChannelSource := { ch1 with failure_count := ch1.failure_count + 1 }
    if 3 ≤ ch2.failure_count then
      ({ ch2 with is_active := false }, 1)
    else
      (ch2, 0)

/-- Result of `DatabaseManager.update_channel_result`: the committed table,
the boolean the method returns, and the number of deactivation warnings it
logged. -/
structure UpdateOutcome where
  db : List ChannelSource
  ok : Bool
  deactivation_logs : Nat
  deriving Repr, DecidableEq

/-- `DatabaseManager.update_channel_result` (`app/database/db_utils.py`
lines 721-777): locate the first stored row matching
`(channel_id, source_type)`; if none exists, warn and return `False`
without touching the table; otherwise apply `applyChannelResult` to that
row and commit. -/
def update_channel_result (db : List ChannelSource) (channel_id source_type : String)
    (success : Bool) (news_count : Nat) (avg_score : ℚ) (now : Nat) : UpdateOutcome :=
  match db with
  | [] => ⟨[], false, 0⟩
  | ch :: rest =>
    if channelMatches channel_id source_type ch then
      let r := applyChannelResult ch success news_count avg_score now
      ⟨r.1 :: rest, true, r.2⟩
    else
      let r := update_channel_result rest channel_id source_type success news_count avg_score now
      ⟨ch :: r.db, r.ok, r.deactivation_logs⟩

/-- C10: calling `update_channel_result` with a `(channel_id, source_type)`
pair matching no stored channel record returns `False` and modifies no
channel record (the table is returned unchanged, and no deactivation
warning is emitted). -/
theorem update_channel_result_no_match (db : List ChannelSource)
    (channel_id source_type : String) (success : Bool) (news_count : Nat)
    (avg_score : ℚ) (now : Nat)
    (h : ∀ ch ∈ db, channelMatches channel_id source_type ch = false) :
    update_channel_result db channel_id source_type success news_count avg_score now
      = ⟨db, false, 0⟩ := by
  induction db with
  | nil => rfl
  | cons ch rest ih =>
    have hch := h ch (List.mem_cons_self ch rest)
    have hrest := ih (fun c hc => h c (List.mem_cons_of_mem _ hc))
    simp [update_channel_result, hch, hrest]

/-- A one-row table whose only channel is `("a", "telegram")`. -/
def dbA : List ChannelSource :=
  [{ channel_id := "a", source_type := "telegram", is_active := true,
     news_collected := 0, success_count := 0, failure_count := 0,
     avg_interest_score := 0, last_processed := none }]

/-- Witness for C10 at a concrete input: the pair `("b", "telegram")`
matches nothing in `dbA`, and the call returns the table unchanged with
`ok = false`. -/
theorem update_channel_result_no_match_witness :
    update_channel_result dbA "b" "telegram" true 0 0 0 = ⟨dbA, false, 0⟩ :=
  update_channel_result_no_match dbA "b" "telegram" true 0 0 0 (by decide)

/-- A channel that has already collected 5 items at average interest 0.8. -/
def chC6 : ChannelSource :=
  { channel_id := "c6", source_type := "telegram", is_active := true,
    news_collected := 5, success_count := 1, failure_count := 0,
    avg_interest_score := 4/5, last_processed := none }

/-- C6 counterexample: folding a successful outcome of 5 items whose
per-poll average is 0 into `chC6` (5 items already collected at average
0.8) leaves `avgScore` at 0.8, because the code only recomputes the
average under the guard `news_count > 0 and avg_score > 0`; the claimed
unconditional weighted-mean formula would give (0.8*5 + 0*5)/(5+5) = 0.4. -/
theorem update_channel_result_avg_cex :
    (update_channel_result [chC6] "c6" "telegram" true 5 0 3).db
        = [{ chC6 with
             last_processed := some 3
             success_count := 2
             news_collected := 10 }]
      ∧ ((4:ℚ)/5 * 5 + 0 * 5) / ((5:ℚ) + 5) = 2/5
      ∧ chC6.avg_interest_score ≠ 2/5 := by
  refine ⟨?_, by norm_num, by norm_num [chC6]⟩
  norm_num [update_channel_result, channelMatches, applyChannelResult, chC6]

/-- C6 (amended): when the successful outcome satisfies the code's guard
`news_count > 0` and `avg_score > 0`, the stored average becomes the
weighted mean
`(avg_prev * collected_prev + avg_score * news_count) / (collected_prev + news_count)`,
and when `collected_prev = 0` this is exactly `avg_score`; outside the
guard (zero new items or zero average) the stored average is unchanged.
Collecting 5 items at average 0.8 and then 5 more at average 0.4 yields
exactly 0.6. -/
theorem applyChannelResult_weighted_mean (ch : ChannelSource) (news_count : Nat)
    (avg_score : ℚ) (now : Nat) (hc : 0 < news_count) (ha : 0 < avg_score) :
    ((applyChannelResult ch true news_count avg_score now).1.avg_interest_score
        = (ch.avg_interest_score * (ch.news_collected : ℚ) + avg_score * (news_count : ℚ))
            / ((ch.news_collected : ℚ) + (news_count : ℚ)))
      ∧ (ch.news_collected = 0 →
          (applyChannelResult ch true news_count avg_score now).1.avg_interest_score
            = avg_score)
      ∧ (update_channel_result
            (update_channel_result
              [{ channel_id := "e", source_type := "telegram", is_active := true,
                 news_collected := 0, success_count := 0, failure_count := 0,
                 avg_interest_score := 0, last_processed := none }]
              "e" "telegram" true 5 (4/5) 1).db
            "e" "telegram" true 5 (2/5) 2).db.map
          (fun c => c.avg_interest_score) = [3/5] := by
  have hc0 : ((news_count : ℚ)) ≠ 0 := by
    exact_mod_cast Nat.pos_iff_ne_zero.mp hc
  refine ⟨?_, ?_,
    by norm_num [update_channel_result, channelMatches, applyChannelResult]⟩
  · simp only [applyChannelResult, if_pos (And.intro hc ha), if_pos rfl]
    simp only [Nat.add_sub_cancel]
    push_cast
    ring_nf
  · intro h0
    simp only [applyChannelResult, if_pos (And.intro hc ha), if_pos rfl, h0]
    push_cast
    field_simp

/-- Witness for C6 (amended) at a concrete input: folding 5 items at
average 0.9 into a channel with 5 items collected at average 0.5 gives
the weighted mean 0.7. -/
theorem applyChannelResult_weighted_mean_witness :
    (applyChannelResult
        { channel_id := "w6", source_type := "telegram", is_active := true,
          news_collected := 5, success_count := 1, failure_count := 0,
          avg_interest_score := 1/2, last_processed := none }
        true 5 (9/10) 4).1.avg_interest_score = 7/10 := by
  have h := (applyChannelResult_weighted_mean
    { channel_id := "w6", source_type := "telegram", is_active := true,
      news_collected := 5, success_count := 1, failure_count := 0,
      avg_interest_score := 1/2, last_processed := none }
    5 (9/10) 4 (by decide) (by norm_num)).1
  rw [h]
  norm_num

/-- A channel sitting one failed outcome below the deactivation
threshold. -/
def chC7 : ChannelSource :=
  { channel_id := "c7", source_type := "telegram", is_active := true,
    news_collected := 0, success_count := 0, failure_count := 2,
    avg_interest_score := 0, last_processed := none }

/-- C7 counterexample: folding a failed outcome into `chC7`
(`failureCount = 2`) deactivates it and logs the deactivation warning
once; folding a second failed outcome into the now-inactive channel emits
the deactivation warning *again* (the code re-enters the `>= 3` branch),
contradicting the claim that no second deactivation event or log occurs.
The failure counter is incremented exactly once per call (3, then 4). -/
theorem update_channel_result_deactivation_cex :
    (update_channel_result [chC7] "c7" "telegram" false 0 0 1).deactivation_logs = 1
      ∧ (update_channel_result [chC7] "c7" "telegram" false 0 0 1).db.map
          (fun c => c.is_active) = [false]
      ∧ (update_channel_result
            (update_channel_result [chC7] "c7" "telegram" false 0 0 1).db
            "c7" "telegram" false 0 0 2).deactivation_logs = 1
      ∧ (update_channel_result
            (update_channel_result [chC7] "c7" "telegram" false 0 0 1).db
            "c7" "telegram" false 0 0 2).db.map
          (fun c => c.failure_count) = [4] := by
  decide

/-- C7 (amended): a failed outcome on a channel with `failureCount = 2`
sets `isActive = false`, raises the counter to 3 and emits the
deactivation warning; a subsequent failed outcome increments the counter
by exactly one (to 4, no double-increment), re-assigns `isActive = false`
— leaving the stored flag false, never reactivating — and emits the
deactivation warning again (the deactivation log is re-triggered on every
further failure). -/
theorem applyChannelResult_failure_threshold (ch : ChannelSource) (now now2 : Nat)
    (h2 : ch.failure_count = 2) :
    ((applyChannelResult ch false 0 0 now).1.is_active = false)
      ∧ ((applyChannelResult ch false 0 0 now).1.failure_count = 3)
      ∧ ((applyChannelResult ch false 0 0 now).2 = 1)
      ∧ ((applyChannelResult (applyChannelResult ch false 0 0 now).1
            false 0 0 now2).1.is_active = false)
      ∧ ((applyChannelResult (applyChannelResult ch false 0 0 now).1
            false 0 0 now2).1.failure_count = 4)
      ∧ ((applyChannelResult (applyChannelResult ch false 0 0 now).1
            false 0 0 now2).2 = 1) := by
  simp [applyChannelResult, h2]

/-- Witness for C7 (amended) at the concrete channel `chC7`. -/
theorem applyChannelResult_failure_threshold_witness :
    (applyChannelResult chC7 false 0 0 1).1.is_active = false
      ∧ (applyChannelResult (applyChannelResult chC7 false 0 0 1).1
          false 0 0 2).1.failure_count = 4 := by
  have h := applyChannelResult_failure_threshold chC7 1 2 (by decide)
  exact ⟨h.1, h.2.2.2.2.1⟩

/-- Python dict lookup `d.get(k)` on a string-keyed association list. -/
def getAssoc {β : Type} (k : String) : List (String × β) → Option β
  | [] => none
  | p :: rest => if p.1 = k then some p.2 else getAssoc k rest

/-- Python dict assignment `d[k] = v` on a string-keyed association list. -/
def setAssoc {β : Type} (k : String) (v : β) : List (String × β) → List (String × β)
  | [] => [(k, v)]
  | p :: rest => if p.1 = k then (k, v) :: rest else p :: setAssoc k v rest

theorem getAssoc_setAssoc_same {β : Type} (k : String) (v : β)
    (l : List (String × β)) : getAssoc k (setAssoc k v l) = some v := by
  induction l with
  | nil => simp [getAssoc, setAssoc]
  | cons p rest ih =>
    by_cases h : p.1 = k
    · simp [getAssoc, setAssoc, h]
    · simp [getAssoc, setAssoc, h, ih]

theorem getAssoc_setAssoc_ne {β : Type} (k kq : String) (v : β)
    (l : List (String × β)) (h : k ≠ kq) :
    getAssoc kq (setAssoc k v l) = getAssoc kq l := by
  induction l with
  | nil => simp [getAssoc, setAssoc, h]
  | cons p rest ih =>
    by_cases hp : p.1 = k
    · simp [getAssoc, setAssoc, hp, h, ih]
    · simp only [setAssoc, if_neg hp, getAssoc]
      by_cases hq : p.1 = kq
      · simp [hq]
      · simp [hq, ih]

/-- The in-memory state of `BaseScheduler`
(`app/scheduler/base_scheduler.py`, `__init__`): the channels grouped by
source type (`self._channels_by_source`), the per-source cursor dict
(`self._channel_indices`), the `cycle` mode flag, the task registry
(`self.tasks`, each task reduced to its name and `done()` flag), the
`is_running` flag and `start_time`. -/
structure BaseSchedulerState where
  channelsBySource : List (String × List ChannelSource)
  channelIndices : List (String × Nat)
  cycle : Bool
  tasks : List (String × Bool)
  is_running : Bool
  start_time : Option Nat
  deriving Repr, DecidableEq

/-- `BaseScheduler._get_next_channel` (`base_scheduler.py` lines 102-146):
filter the source's channels down to the active ones; when the cursor has
reached the end, wrap to element 0 in cycle mode (writing the cursor twice,
as the code does: reset to 0, then advance past the returned element) or
return `none` without mutating the cursor in single-pass mode; otherwise
return the element at the cursor and advance the cursor by one. -/
def get_next_channel (s : BaseSchedulerState) (source_type : String) :
    Option ChannelSource × BaseSchedulerState :=
  let channels := (getAssoc source_type s.channelsBySource).getD []
  if channels = [] then (none, s)
  else
    let active_channels := channels.filter (fun ch => ch.is_active)
    if active_channels = [] then (none, s)
    else
      let current_index := (getAssoc source_type s.channelIndices).getD 0
      if active_channels.length ≤ current_index then
        if s.cycle then
          (active_channels.get? 0,
           { s with channelIndices :=
              setAssoc source_type 1 (setAssoc source_type 0 s.channelIndices) })
        else (none, s)
      else
        (active_channels.get? current_index,
         { s with channelIndices :=
            setAssoc source_type (current_index + 1) s.channelIndices })

/-- The scheduler state after `k` successive `_get_next_channel` calls for
one source type. -/
def stateAfter (s : BaseSchedulerState) (source_type : String) : Nat → BaseSchedulerState
  | 0 => s
  | k+1 => (get_next_channel (stateAfter s source_type k) source_type).2

/-- The channel returned by the `(k+1)`-st `_get_next_channel` call for one
source type, counting from state `s`. -/
def outputAt (s : BaseSchedulerState) (source_type : String) (k : Nat) :
    Option ChannelSource :=
  (get_next_channel (stateAfter s source_type k) source_type).1

/-- `_get_next_channel` only ever writes the cursor dict: every other
field of the scheduler state is preserved. -/
theorem get_next_channel_frame (s : BaseSchedulerState) (st : String) :
    (get_next_channel s st).2.channelsBySource = s.channelsBySource
      ∧ (get_next_channel s st).2.cycle = s.cycle
      ∧ (get_next_channel s st).2.tasks = s.tasks
      ∧ (get_next_channel s st).2.is_running = s.is_running
      ∧ (get_next_channel s st).2.start_time = s.start_time := by
  unfold get_next_channel
  dsimp only
  split_ifs <;> simp [*]

/-- The entry section of `BaseScheduler.start` (`base_scheduler.py` lines
558-574): the method first clears the task registry and the per-source
cursor dict (lines 563-564), then refuses when `is_running` is already set
(lines 568-570), otherwise marks the scheduler running and stamps
`start_time`.  The `Bool` says whether the start proceeded; the remainder
of `start` (parser creation, initialization, task spawning and the
supervision loop) runs only in that case. -/
def scheduler_start_guard (s : BaseSchedulerState) (now : Nat) :
    BaseSchedulerState × Bool :=
  let s1 : BaseSchedulerState := { s with tasks := [], channelIndices := [] }
  if s1.is_running then (s1, false)
  else ({ s1 with is_running := true, start_time := some now }, true)

/-- A continuous scheduler that is already running, owns a live task and
has a non-zero cursor. -/
def schedC9 : BaseSchedulerState :=
  { channelsBySource := [("telegram", [])], channelIndices := [("telegram", 2)],
    cycle := true, tasks := [("telegram", false)], is_running := true,
    start_time := some 5 }

/-- C9 counterexample: a second `start()` on the already-running `schedC9`
is refused, but the refused call does NOT leave the instance unchanged:
lines 563-564 of `base_scheduler.py` clear `self.tasks` and
`self._channel_indices` before the `is_running` check, so the task table
and the per-source cursors of the refused instance are wiped. -/
theorem scheduler_start_idempotent_cex :
    (scheduler_start_guard schedC9 7).2 = false
      ∧ (scheduler_start_guard schedC9 7).1.tasks = []
      ∧ schedC9.tasks ≠ []
      ∧ (scheduler_start_guard schedC9 7).1.channelIndices = []
      ∧ schedC9.channelIndices ≠ [] := by decide

/-- C9 (amended): `start()` on an instance that is already running refuses
the second start and returns; the refused call leaves `is_running`,
`start_time`, the channel lists and the mode flag unchanged, but it does
clear the instance's task table and per-source channel cursors (the
method empties both dicts before checking `is_running`). -/
theorem scheduler_start_refuses_when_running (s : BaseSchedulerState) (now : Nat)
    (h : s.is_running = true) :
    (scheduler_start_guard s now).2 = false
      ∧ (scheduler_start_guard s now).1.is_running = s.is_running
      ∧ (scheduler_start_guard s now).1.start_time = s.start_time
      ∧ (scheduler_start_guard s now).1.channelsBySource = s.channelsBySource
      ∧ (scheduler_start_guard s now).1.cycle = s.cycle
      ∧ (scheduler_start_guard s now).1.tasks = []
      ∧ (scheduler_start_guard s now).1.channelIndices = [] := by
  simp [scheduler_start_guard, h]

/-- Witness for C9 (amended) at the concrete running scheduler `schedC9`. -/
theorem scheduler_start_refuses_when_running_witness :
    (scheduler_start_guard schedC9 7).2 = false
      ∧ (scheduler_start_guard schedC9 7).1.is_running = schedC9.is_running :=
  ⟨(scheduler_start_refuses_when_running schedC9 7 (by decide)).1,
   (scheduler_start_refuses_when_running schedC9 7 (by decide)).2.1⟩

/-- Step characterization of `_get_next_channel` when the cursor is in
range: the element at the cursor is returned and the cursor advances. -/
theorem get_next_channel_in_range (s : BaseSchedulerState) (st : String)
    (chans : List ChannelSource) (i : Nat)
    (hch : getAssoc st s.channelsBySource = some chans)
    (hidx : getAssoc st s.channelIndices = some i)
    (hi : i < (chans.filter (fun ch => ch.is_active)).length) :
    get_next_channel s st
      = ((chans.filter (fun ch => ch.is_active)).get? i,
         { s with channelIndices := setAssoc st (i + 1) s.channelIndices }) := by
  have hactne : chans.filter (fun ch => ch.is_active) ≠ [] := by
    intro h; rw [h] at hi; simp at hi
  have hchne : chans ≠ [] := by
    intro h; subst h; simp at hactne
  unfold get_next_channel
  dsimp only
  rw [hch]
  simp only [Option.getD_some]
  rw [if_neg hchne, if_neg hactne, hidx]
  simp only [Option.getD_some]
  rw [if_neg (Nat.not_le.mpr hi)]

/-- Step characterization of `_get_next_channel` at an exhausted cursor in
cycle mode: wrap around, return element 0 and leave the cursor at 1. -/
theorem get_next_channel_wrap (s : BaseSchedulerState) (st : String)
    (chans : List ChannelSource) (i : Nat)
    (hch : getAssoc st s.channelsBySource = some chans)
    (hidx : getAssoc st s.channelIndices = some i)
    (hcy : s.cycle = true)
    (hactne : chans.filter (fun ch => ch.is_active) ≠ [])
    (hi : (chans.filter (fun ch => ch.is_active)).length ≤ i) :
    get_next_channel s st
      = ((chans.filter (fun ch => ch.is_active)).get? 0,
         { s with channelIndices := setAssoc st 1 (setAssoc st 0 s.channelIndices) }) := by
  have hchne : chans ≠ [] := by
    intro h; subst h; simp at hactne
  unfold get_next_channel
  dsimp only
  rw [hch]
  simp only [Option.getD_some]
  rw [if_neg hchne, if_neg hactne, hidx]
  simp only [Option.getD_some]
  rw [if_pos hi, if_pos hcy]

/-- Step characterization of `_get_next_channel` at an exhausted cursor in
single-pass mode: return `none` and leave the state untouched. -/
theorem get_next_channel_exhausted (s : BaseSchedulerState) (st : String)
    (chans : List ChannelSource) (i : Nat)
    (hch : getAssoc st s.channelsBySource = some chans)
    (hidx : getAssoc st s.channelIndices = some i)
    (hcy : s.cycle = false)
    (hactne : chans.filter (fun ch => ch.is_active) ≠ [])
    (hi : (chans.filter (fun ch => ch.is_active)).length ≤ i) :
    get_next_channel s st = (none, s) := by
  have hchne : chans ≠ [] := by
    intro h; subst h; simp at hactne
  unfold get_next_channel
  dsimp only
  rw [hch]
  simp only [Option.getD_some]
  rw [if_neg hchne, if_neg hactne, hidx]
  simp only [Option.getD_some]
  rw [if_pos hi, if_neg (by simp [hcy])]

theorem succ_mod_of_succ_lt {n k : Nat} (h : k % n + 1 < n) :
    (k + 1) % n = k % n + 1 := by
  have hn : 1 < n := lt_of_le_of_lt (Nat.le_add_left 1 (k % n)) h
  rw [Nat.add_mod, Nat.mod_eq_of_lt hn, Nat.mod_eq_of_lt h]

theorem succ_mod_of_succ_eq {n k : Nat} (hn : 0 < n) (h : k % n + 1 = n) :
    (k + 1) % n = 0 := by
  rcases Nat.lt_or_ge 1 n with h1 | h1
  · rw [Nat.add_mod, Nat.mod_eq_of_lt h1, h, Nat.mod_self]
  · have hn1 : n = 1 := le_antisymm h1 hn
    subst hn1
    simp [Nat.mod_one]

/-- Cursor evolution over repeated `_get_next_channel` calls in cycle
mode: after the call number `k + 1` the cursor is `k % n + 1`, and the
channel map and mode flag never change. -/
theorem cycle_cursor_invariant (s : BaseSchedulerState) (st : String)
    (chans : List ChannelSource)
    (hch : getAssoc st s.channelsBySource = some chans)
    (hactne : chans.filter (fun ch => ch.is_active) ≠ [])
    (hcy : s.cycle = true)
    (hidx : getAssoc st s.channelIndices = some 0) :
    ∀ k, (stateAfter s st k).channelsBySource = s.channelsBySource
      ∧ (stateAfter s st k).cycle = true
      ∧ getAssoc st (stateAfter s st k).channelIndices
          = some (match k with
                  | 0 => 0
                  | j+1 => j % (chans.filter (fun ch => ch.is_active)).length + 1) := by
  have hn : 0 < (chans.filter (fun ch => ch.is_active)).length :=
    List.length_pos.mpr hactne
  intro k
  induction k with
  | zero => exact ⟨rfl, hcy, hidx⟩
  | succ k ih =>
    obtain ⟨ihch, ihcy, ihidx⟩ := ih
    have hch2 : getAssoc st (stateAfter s st k).channelsBySource = some chans := by
      rw [ihch]; exact hch
    match k with
    | 0 =>
      have hstep := get_next_channel_in_range (stateAfter s st 0) st chans 0 hch2 ihidx hn
      simp only [stateAfter] at hstep ihcy ⊢
      rw [hstep]
      refine ⟨rfl, ihcy, ?_⟩
      rw [getAssoc_setAssoc_same]
      simp
    | j+1 =>
      rcases Nat.lt_or_ge (j % (chans.filter (fun ch => ch.is_active)).length + 1)
          ((chans.filter (fun ch => ch.is_active)).length) with hlt | hge
      · have hstep := get_next_channel_in_range (stateAfter s st (j+1)) st chans
          (j % (chans.filter (fun ch => ch.is_active)).length + 1) hch2 ihidx hlt
        have hmod := succ_mod_of_succ_lt hlt
        simp only [stateAfter] at hstep ihch ihcy ⊢
        rw [hstep]
        refine ⟨ihch, ihcy, ?_⟩
        rw [getAssoc_setAssoc_same, hmod]
      · have hstep := get_next_channel_wrap (stateAfter s st (j+1)) st chans
          (j % (chans.filter (fun ch => ch.is_active)).length + 1) hch2 ihidx ihcy hactne hge
        have heq : j % (chans.filter (fun ch => ch.is_active)).length + 1
            = (chans.filter (fun ch => ch.is_active)).length := by
          have := Nat.mod_lt j hn
          omega
        have hmod := succ_mod_of_succ_eq hn heq
        simp only [stateAfter] at hstep ihch ihcy ⊢
        rw [hstep]
        refine ⟨ihch, ihcy, ?_⟩
        rw [getAssoc_setAssoc_same, hmod]

/-- C4: in wrap mode (`cycle = true`), over a fixed channel map, the
sequence of channels returned by `_get_next_channel` starting from cursor
0 is `active[k % n]` at call number `k + 1` (where `active` is the list of
active channels and `n` its length): the full active list is served in
order with no skips, the first `n` calls return each active channel
exactly once, and repetition happens only by wrapping back to index 0. -/
theorem next_channel_cycles (s : BaseSchedulerState) (st : String)
    (chans : List ChannelSource)
    (hch : getAssoc st s.channelsBySource = some chans)
    (hactne : chans.filter (fun ch => ch.is_active) ≠ [])
    (hcy : s.cycle = true)
    (hidx : getAssoc st s.channelIndices = some 0) :
    ∀ k, outputAt s st k
      = (chans.filter (fun ch => ch.is_active)).get?
          (k % (chans.filter (fun ch => ch.is_active)).length) := by
  have hn : 0 < (chans.filter (fun ch => ch.is_active)).length :=
    List.length_pos.mpr hactne
  intro k
  obtain ⟨ihch, ihcy, ihidx⟩ := cycle_cursor_invariant s st chans hch hactne hcy hidx k
  have hch2 : getAssoc st (stateAfter s st k).channelsBySource = some chans := by
    rw [ihch]; exact hch
  match k with
  | 0 =>
    have hstep := get_next_channel_in_range (stateAfter s st 0) st chans 0 hch2 ihidx hn
    unfold outputAt
    rw [hstep]
    simp [Nat.mod_eq_of_lt hn]
  | j+1 =>
    rcases Nat.lt_or_ge (j % (chans.filter (fun ch => ch.is_active)).length + 1)
        ((chans.filter (fun ch => ch.is_active)).length) with hlt | hge
    · have hstep := get_next_channel_in_range (stateAfter s st (j+1)) st chans
        (j % (chans.filter (fun ch => ch.is_active)).length + 1) hch2 ihidx hlt
      have hmod := succ_mod_of_succ_lt hlt
      unfold outputAt
      rw [hstep, hmod]
    · have hstep := get_next_channel_wrap (stateAfter s st (j+1)) st chans
        (j % (chans.filter (fun ch => ch.is_active)).length + 1) hch2 ihidx ihcy hactne hge
      have heq : j % (chans.filter (fun ch => ch.is_active)).length + 1
          = (chans.filter (fun ch => ch.is_active)).length := by
        have := Nat.mod_lt j hn
        omega
      have hmod := succ_mod_of_succ_eq hn heq
      unfold outputAt
      rw [hstep, hmod]

/-- An active channel `a` used in concrete scheduler scenarios. -/
def cA : ChannelSource :=
  { channel_id := "a", source_type := "telegram", is_active := true,
    news_collected := 0, success_count := 0, failure_count := 0,
    avg_interest_score := 0, last_processed := none }

/-- An inactive channel `x` used in concrete scheduler scenarios. -/
def cX : ChannelSource :=
  { channel_id := "x", source_type := "telegram", is_active := false,
    news_collected := 0, success_count := 0, failure_count := 0,
    avg_interest_score := 0, last_processed := none }

/-- An active channel `b` used in concrete scheduler scenarios. -/
def cB : ChannelSource :=
  { channel_id := "b", source_type := "telegram", is_active := true,
    news_collected := 0, success_count := 0, failure_count := 0,
    avg_interest_score := 0, last_processed := none }

/-- A cycle-mode scheduler over the channel list `[a, x, b]` (two active
channels and one inactive), cursor at 0. -/
def schedC4 : BaseSchedulerState :=
  { channelsBySource := [("telegram", [cA, cX, cB])],
    channelIndices := [("telegram", 0)], cycle := true, tasks := [],
    is_running := true, start_time := none }

/-- Witness for C4 at a concrete input: on `schedC4` the third call wraps
around and serves active channel `a` again (`2 % 2 = 0`). -/
theorem next_channel_cycles_witness :
    outputAt schedC4 "telegram" 2 = some cA := by
  have h := next_channel_cycles schedC4 "telegram" [cA, cX, cB]
    (by decide) (by decide) rfl (by decide) 2
  rw [h]
  decide

/-- `BaseScheduler._check_finished` (`base_scheduler.py` lines 148-178):
always `False` in cycle mode; in single-pass mode, collect the source
types that are enabled in `config.app.parser_status` *and* present in the
channel map, and report finished exactly when every such source's cursor
has reached the length of its active-channel list. -/
def check_finished (s : BaseSchedulerState)
    (parser_status : List (String × Bool)) : Bool :=
  if s.cycle then false
  else
    let active_sources := (parser_status.filter
        (fun p => p.2 && (getAssoc p.1 s.channelsBySource).isSome)).map (fun p => p.1)
    active_sources.all (fun source_type =>
      let channels := (getAssoc source_type s.channelsBySource).getD []
      let active_channels := channels.filter (fun ch => ch.is_active)
      decide (active_channels.length ≤ (getAssoc source_type s.channelIndices).getD 0))

/-- The channel reload performed by `BaseScheduler._sync_loop` (lines
450-457) and `force_sync` (lines 523-533): install the freshly
synchronized channel map and reset every synchronized source's cursor
to 0. -/
def resync_reset (s : BaseSchedulerState)
    (channels_by_source : List (String × List ChannelSource)) : BaseSchedulerState :=
  { s with channelsBySource := channels_by_source,
           channelIndices := (channels_by_source.map (fun p => p.1)).foldl
             (fun acc source_type => setAssoc source_type 0 acc) s.channelIndices }

theorem getAssoc_foldl_set_of_not_mem (l : List String) (acc : List (String × Nat))
    (st : String) (h : st ∉ l) :
    getAssoc st (l.foldl (fun a k => setAssoc k 0 a) acc) = getAssoc st acc := by
  induction l generalizing acc with
  | nil => rfl
  | cons k rest ih =>
    have hne : k ≠ st := fun hh => h (hh ▸ List.mem_cons_self k rest)
    simp only [List.foldl_cons]
    rw [ih _ (fun hm => h (List.mem_cons_of_mem _ hm)),
      getAssoc_setAssoc_ne k st 0 acc hne]

theorem getAssoc_foldl_set_of_mem (l : List String) (acc : List (String × Nat))
    (st : String) (h : st ∈ l) :
    getAssoc st (l.foldl (fun a k => setAssoc k 0 a) acc) = some 0 := by
  induction l generalizing acc with
  | nil => cases h
  | cons k rest ih =>
    simp only [List.foldl_cons]
    by_cases hm : st ∈ rest
    · exact ih _ hm
    · have hk : k = st := by
        rcases List.mem_cons.mp h with h1 | h2
        · exact h1.symm
        · exact absurd h2 hm
      rw [getAssoc_foldl_set_of_not_mem rest _ st hm, hk, getAssoc_setAssoc_same]

theorem mem_keys_of_getAssoc {β : Type} (k : String) (l : List (String × β))
    (v : β) (h : getAssoc k l = some v) : k ∈ l.map (fun p => p.1) := by
  induction l with
  | nil => simp [getAssoc] at h
  | cons p rest ih =>
    by_cases hp : p.1 = k
    · simp [hp]
    · simp only [getAssoc, if_neg hp] at h
      simp [ih h]

/-- `_check_finished` in single-pass mode, characterized as the
specification states it: true iff, for every enabled source type present
in the channel map, the cursor has reached the active-list length. -/
theorem check_finished_iff (s : BaseSchedulerState) (ps : List (String × Bool))
    (hcy : s.cycle = false) :
    check_finished s ps = true ↔
      ∀ p ∈ ps, p.2 = true → ∀ chs, getAssoc p.1 s.channelsBySource = some chs →
        (chs.filter (fun ch => ch.is_active)).length
          ≤ (getAssoc p.1 s.channelIndices).getD 0 := by
  unfold check_finished
  rw [if_neg (by simp [hcy])]
  dsimp only
  rw [List.all_eq_true]
  constructor
  · intro h p hp hpt chs hchs
    have hmem : p.1 ∈ (ps.filter
        (fun p => p.2 && (getAssoc p.1 s.channelsBySource).isSome)).map (fun p => p.1) := by
      refine List.mem_map.mpr ⟨p, ?_, rfl⟩
      refine List.mem_filter.mpr ⟨hp, ?_⟩
      simp [hpt, hchs]
    have hx := h p.1 hmem
    simpa [hchs] using hx
  · intro h x hx
    obtain ⟨p, hpmem, rfl⟩ := List.mem_map.mp hx
    obtain ⟨hps, hcond⟩ := List.mem_filter.mp hpmem
    simp only [Bool.and_eq_true] at hcond
    obtain ⟨hpt, hsome⟩ := hcond
    obtain ⟨chs, hchs⟩ := Option.isSome_iff_exists.mp hsome
    have hle := h p hps hpt chs hchs
    simpa [hchs] using hle

/-- Cursor evolution over repeated `_get_next_channel` calls in
single-pass mode: after `k` calls the cursor is `min k n`, and the channel
map and mode flag never change. -/
theorem single_pass_cursor_invariant (s : BaseSchedulerState) (st : String)
    (chans : List ChannelSource)
    (hch : getAssoc st s.channelsBySource = some chans)
    (hactne : chans.filter (fun ch => ch.is_active) ≠ [])
    (hcy : s.cycle = false)
    (hidx : getAssoc st s.channelIndices = some 0) :
    ∀ k, (stateAfter s st k).channelsBySource = s.channelsBySource
      ∧ (stateAfter s st k).cycle = false
      ∧ getAssoc st (stateAfter s st k).channelIndices
          = some (min k (chans.filter (fun ch => ch.is_active)).length) := by
  intro k
  induction k with
  | zero => exact ⟨rfl, hcy, by simpa using hidx⟩
  | succ k ih =>
    obtain ⟨ihch, ihcy, ihidx⟩ := ih
    have hch2 : getAssoc st (stateAfter s st k).channelsBySource = some chans := by
      rw [ihch]; exact hch
    rcases Nat.lt_or_ge k (chans.filter (fun ch => ch.is_active)).length with hk | hk
    · rw [Nat.min_eq_left (Nat.le_of_lt hk)] at ihidx
      have hstep := get_next_channel_in_range (stateAfter s st k) st chans k hch2 ihidx hk
      simp only [stateAfter] at hstep ihcy ⊢
      rw [hstep]
      refine ⟨ihch, ihcy, ?_⟩
      rw [getAssoc_setAssoc_same, Nat.min_eq_left hk]
    · rw [Nat.min_eq_right hk] at ihidx
      have hstep := get_next_channel_exhausted (stateAfter s st k) st chans
        ((chans.filter (fun ch => ch.is_active)).length) hch2 ihidx ihcy hactne (le_refl _)
      simp only [stateAfter] at hstep ⊢
      rw [hstep]
      refine ⟨ihch, ihcy, ?_⟩
      rw [Nat.min_eq_right (le_trans hk (Nat.le_succ k))]
      exact ihidx

/-- C5: in single-pass mode (`cycle = false`) over a fixed non-empty
active-channel list of length `n`: the first `n` calls serve the active
channels in order; every call from the `(n+1)`-st on returns `none`
without mutating the state further; after `n` calls the cursor equals
`n`; `_check_finished` at that point is true iff, for every enabled
source type present in the channel map, the cursor has reached the
active-list length; and a reconciliation that resets the cursors to 0
makes `_check_finished` false again. -/
theorem single_pass_exhaustion (s : BaseSchedulerState) (st : String)
    (chans : List ChannelSource) (ps : List (String × Bool))
    (hch : getAssoc st s.channelsBySource = some chans)
    (hactne : chans.filter (fun ch => ch.is_active) ≠ [])
    (hcy : s.cycle = false)
    (hidx : getAssoc st s.channelIndices = some 0) :
    (∀ k, k < (chans.filter (fun ch => ch.is_active)).length →
        outputAt s st k = (chans.filter (fun ch => ch.is_active)).get? k)
      ∧ (∀ k, (chans.filter (fun ch => ch.is_active)).length ≤ k →
          outputAt s st k = none ∧ stateAfter s st (k + 1) = stateAfter s st k)
      ∧ getAssoc st
          (stateAfter s st (chans.filter (fun ch => ch.is_active)).length).channelIndices
          = some (chans.filter (fun ch => ch.is_active)).length
      ∧ (check_finished
            (stateAfter s st (chans.filter (fun ch => ch.is_active)).length) ps = true
          ↔ ∀ p ∈ ps, p.2 = true →
              ∀ chs, getAssoc p.1 s.channelsBySource = some chs →
                (chs.filter (fun ch => ch.is_active)).length
                  ≤ (getAssoc p.1
                      (stateAfter s st
                        (chans.filter (fun ch => ch.is_active)).length).channelIndices).getD 0)
      ∧ ((st, true) ∈ ps →
          check_finished
            (resync_reset
              (stateAfter s st (chans.filter (fun ch => ch.is_active)).length)
              s.channelsBySource) ps = false) := by
  have hinv := single_pass_cursor_invariant s st chans hch hactne hcy hidx
  refine ⟨?_, ?_, ?_, ?_, ?_⟩
  · intro k hk
    obtain ⟨ihch, ihcy, ihidx⟩ := hinv k
    rw [Nat.min_eq_left (Nat.le_of_lt hk)] at ihidx
    have hch2 : getAssoc st (stateAfter s st k).channelsBySource = some chans := by
      rw [ihch]; exact hch
    have hstep := get_next_channel_in_range (stateAfter s st k) st chans k hch2 ihidx hk
    unfold outputAt
    rw [hstep]
  · intro k hk
    obtain ⟨ihch, ihcy, ihidx⟩ := hinv k
    rw [Nat.min_eq_right hk] at ihidx
    have hch2 : getAssoc st (stateAfter s st k).channelsBySource = some chans := by
      rw [ihch]; exact hch
    have hstep := get_next_channel_exhausted (stateAfter s st k) st chans
      ((chans.filter (fun ch => ch.is_active)).length) hch2 ihidx ihcy hactne (le_refl _)
    constructor
    · unfold outputAt
      rw [hstep]
    · simp only [stateAfter]
      rw [hstep]
  · obtain ⟨ihch, ihcy, ihidx⟩ := hinv (chans.filter (fun ch => ch.is_active)).length
    rw [Nat.min_self] at ihidx
    exact ihidx
  · obtain ⟨ihch, ihcy, ihidx⟩ := hinv (chans.filter (fun ch => ch.is_active)).length
    have hiff := check_finished_iff
      (stateAfter s st (chans.filter (fun ch => ch.is_active)).length) ps ihcy
    rw [ihch] at hiff
    exact hiff
  · intro hmem
    obtain ⟨ihch, ihcy, ihidx⟩ := hinv (chans.filter (fun ch => ch.is_active)).length
    have hRcy : (resync_reset
        (stateAfter s st (chans.filter (fun ch => ch.is_active)).length)
        s.channelsBySource).cycle = false := ihcy
    have hiff := check_finished_iff
      (resync_reset (stateAfter s st (chans.filter (fun ch => ch.is_active)).length)
        s.channelsBySource) ps hRcy
    rcases Bool.eq_false_or_eq_true (check_finished
        (resync_reset (stateAfter s st (chans.filter (fun ch => ch.is_active)).length)
          s.channelsBySource) ps) with hT | hF
    swap
    · exact hF
    · exfalso
      have hgetch : getAssoc st
          (resync_reset (stateAfter s st (chans.filter (fun ch => ch.is_active)).length)
            s.channelsBySource).channelsBySource = some chans := hch
      have hle := (hiff.mp hT) (st, true) hmem rfl chans hgetch
      have hzero : getAssoc st
          (resync_reset (stateAfter s st (chans.filter (fun ch => ch.is_active)).length)
            s.channelsBySource).channelIndices = some 0 := by
        apply getAssoc_foldl_set_of_mem
        exact mem_keys_of_getAssoc st s.channelsBySource chans hch
      rw [hzero] at hle
      simp only [Option.getD_some, Nat.le_zero] at hle
      exact hactne (List.length_eq_zero.mp hle)

/-- A single-pass scheduler over the channel list `[a, x, b]` (two active
channels), cursor at 0. -/
def schedC5 : BaseSchedulerState :=
  { channelsBySource := [("telegram", [cA, cX, cB])],
    channelIndices := [("telegram", 0)], cycle := false, tasks := [],
    is_running := true, start_time := none }

/-- Witness for C5 at a concrete input: with 2 active channels, the third
call returns `none`, and after the two exhausting calls a reconciliation
reset makes `_check_finished` false again. -/
theorem single_pass_exhaustion_witness :
    outputAt schedC5 "telegram" 2 = none
      ∧ check_finished
          (resync_reset
            (stateAfter schedC5 "telegram"
              (([cA, cX, cB].filter (fun ch => ch.is_active)).length))
            schedC5.channelsBySource) [("telegram", true)] = false := by
  have h := single_pass_exhaustion schedC5 "telegram" [cA, cX, cB]
    [("telegram", true)] (by decide) (by decide) rfl (by decide)
  exact ⟨(h.2.1 2 (by decide)).1, h.2.2.2.2 (by decide)⟩

/-- `BaseScheduler._check_parser_needs_restart` (`base_scheduler.py` lines
259-277): the source is unhealthy when more than half of its channels have
`failure_count >= 3` (Python float division on the right-hand side,
modelled in `ℚ`). -/
def check_parser_needs_restart (s : BaseSchedulerState) (source_type : String) : Bool :=
  let channels := (getAssoc source_type s.channelsBySource).getD []
  if channels = [] then false
  else
    let recent_failures :=
      (channels.filter (fun ch => decide (3 ≤ ch.failure_count))).length
    decide ((channels.length : ℚ) / 2 < (recent_failures : ℚ))

/-- What the collaborators do when `_process_single_channel` handles one
channel: the parser for the source type is missing, the pipeline call
(parse / filter / save) raises, or it completes and saves `saved` items
with per-poll average `avg`. -/
inductive ChannelOutcome where
  | parserMissing
  | pipelineRaises
  | collected (saved : Nat) (avg : ℚ)
  deriving Repr, DecidableEq

/-- `BaseScheduler._process_single_channel` (`base_scheduler.py` lines
180-257) at event granularity: a missing parser or any exception raised
by the pipeline call is caught by the method's own `try/except` and
recorded as a failed outcome via `update_channel_result`; a completed
pipeline records a successful outcome.  Returns the updated channel table
and the saved-news count the method returns. -/
def process_single_channel (db : List ChannelSource) (source_type : String)
    (ch : ChannelSource) (outcome : ChannelOutcome) (now : Nat) :
    List ChannelSource × Nat :=
  match outcome with
  | .parserMissing =>
    ((update_channel_result db ch.channel_id source_type false 0 0 now).db, 0)
  | .pipelineRaises =>
    ((update_channel_result db ch.channel_id source_type false 0 0 now).db, 0)
  | .collected saved avg =>
    ((update_channel_result db ch.channel_id source_type true saved avg now).db, saved)

/-- Behaviour of one iteration of the `while True` loop in
`_process_source_task`: either the bookkeeping outside the pipeline call
(finish check, restart check, channel selection) raises an unexpected
exception, or the iteration runs normally with the given per-channel
outcome. -/
inductive IterBehavior where
  | bookkeepingRaises
  | runs (outcome : ChannelOutcome)
  deriving Repr, DecidableEq

/-- Result of one iteration of `_process_source_task`'s loop: the new
scheduler state and channel table, whether the iteration ended the loop
(`break`), and which sleeps it performed. -/
structure IterOutcome where
  state : BaseSchedulerState
  db : List ChannelSource
  breaksLoop : Bool
  slept60 : Bool
  sleptInterval : Bool
  deriving Repr, DecidableEq

/-- One iteration of the `while True` loop of
`BaseScheduler._process_source_task` (`base_scheduler.py` lines 400-439):
finish check (single-pass only) then `break`; unhealthy-parser check then
sleep 60 s and `continue`; channel selection, `break` when `none`;
otherwise `_process_single_channel` (which catches its own pipeline
errors) followed by the inter-channel interval sleep and `continue`.
An unexpected exception outside the pipeline call lands in the
`except Exception` handler on lines 436-439, which logs the error, sleeps
60 seconds and then BREAKS out of the loop. -/
def process_source_task_iter (s : BaseSchedulerState) (db : List ChannelSource)
    (source_type : String) (parser_status : List (String × Bool))
    (behavior : IterBehavior) (now : Nat) : IterOutcome :=
  match behavior with
  | .bookkeepingRaises => ⟨s, db, true, true, false⟩
  | .runs outcome =>
    if s.cycle = false ∧ check_finished s parser_status = true then
      ⟨s, db, true, false, false⟩
    else if check_parser_needs_restart s source_type then
      ⟨s, db, false, true, false⟩
    else
      match get_next_channel s source_type with
      | (none, s1) => ⟨s1, db, true, false, false⟩
      | (some ch, s1) =>
        let r := process_single_channel db source_type ch outcome now
        ⟨s1, r.1, false, false, true⟩

/-- C8 counterexample: an unexpected error in selection/bookkeeping makes
the loop sleep 60 seconds and then TERMINATE (`break` on line 439), not
retry from the same position as claimed. -/
theorem process_source_task_error_cex :
    (process_source_task_iter schedC4 dbA "telegram" [("telegram", true)]
        IterBehavior.bookkeepingRaises 0).breaksLoop = true
      ∧ (process_source_task_iter schedC4 dbA "telegram" [("telegram", true)]
          IterBehavior.bookkeepingRaises 0).slept60 = true := by
  decide

/-- C8 (amended): errors in a Source Poll Loop are never fatal to the
processing of a single channel — an unexpected error raised by the
per-channel pipeline call is caught, recorded as a failed outcome for
that channel, and the loop continues with the next iteration (after the
usual interval sleep, with no 60-second back-off).  An error raised
during selection or outcome bookkeeping outside the pipeline call is
logged, the loop sleeps 60 seconds, and then the loop TERMINATES
(`break`) rather than retrying. -/
theorem process_source_task_error_handling (s s1 : BaseSchedulerState)
    (db : List ChannelSource) (source_type : String)
    (parser_status : List (String × Bool)) (ch : ChannelSource) (now : Nat)
    (hfin : ¬(s.cycle = false ∧ check_finished s parser_status = true))
    (hrest : check_parser_needs_restart s source_type = false)
    (hsel : get_next_channel s source_type = (some ch, s1)) :
    process_source_task_iter s db source_type parser_status
        (IterBehavior.runs ChannelOutcome.pipelineRaises) now
      = ⟨s1, (update_channel_result db ch.channel_id source_type false 0 0 now).db,
          false, false, true⟩
      ∧ process_source_task_iter s db source_type parser_status
          IterBehavior.bookkeepingRaises now
        = ⟨s, db, true, true, false⟩ := by
  constructor
  · unfold process_source_task_iter
    dsimp only
    rw [if_neg hfin, if_neg (by simp [hrest]), hsel]
    simp [process_single_channel]
  · rfl

/-- Witness for C8 (amended) at a concrete scheduler: the pipeline error
on channel `a` is recorded as a failed outcome and the loop continues. -/
theorem process_source_task_error_handling_witness :
    process_source_task_iter schedC4 dbA "telegram" [("telegram", true)]
        (IterBehavior.runs ChannelOutcome.pipelineRaises) 9
      = ⟨{ schedC4 with channelIndices := [("telegram", 1)] },
         (update_channel_result dbA cA.channel_id "telegram" false 0 0 9).db,
         false, false, true⟩ :=
  (process_source_task_error_handling schedC4
    { schedC4 with channelIndices := [("telegram", 1)] } dbA "telegram"
    [("telegram", true)] cA 9 (by decide)
    (by norm_num [check_parser_needs_restart, schedC4, getAssoc, cA, cX, cB])
    (by decide)).1

/-- The state of the `SchedulerManager` singleton
(`app/scheduler/scheduler_manager.py`) relevant to engine startup: the
task registry `self.tasks` (task name mapped to its `done()` flag), and
each polling engine instance reduced to `none` (instance not created) or
`some b` (instance exists with `is_running = b`). -/
structure ManagerState where
  tasks : List (String × Bool)
  continuousRunning : Option Bool
  singlePassRunning : Option Bool
  deriving Repr, DecidableEq

/-- `SchedulerManager._get_scheduler_name` (`scheduler_manager.py` lines
627-643). -/
def get_scheduler_name (scheduler_type : String) : String :=
  if scheduler_type = "continuous" then "Цикличный сборщик"
  else if scheduler_type = "single_pass" then "Единичный сборщик"
  else if scheduler_type = "digest_publisher" then "Планировщик публикаций"
  else if scheduler_type = "sheets_sync" then "Синхронизация с Google Sheets"
  else scheduler_type

/-- The `active_scheduler` field of
`SchedulerManager.get_mutual_exclusion_status` (`scheduler_manager.py`
lines 513-541): first consult the task registry for a live, non-completed
`continuous` then `single_pass` task, then fall back to each engine's own
`is_running` flag, in that order. -/
def active_scheduler (m : ManagerState) : Option String :=
  match getAssoc "continuous" m.tasks with
  | some false => some "continuous"
  | _ =>
    match getAssoc "single_pass" m.tasks with
    | some false => some "single_pass"
    | _ =>
      if m.continuousRunning = some true then some "continuous"
      else if m.singlePassRunning = some true then some "single_pass"
      else none

/-- The conflict message assembled by `_check_mutual_exclusion`
(`scheduler_manager.py` lines 504-508). -/
def mutex_error_msg (scheduler_type current_running : String) : String :=
  "Нельзя запустить " ++ get_scheduler_name scheduler_type ++ ": "
    ++ get_scheduler_name current_running ++ " уже запущен. Остановите его сначала."

/-- `SchedulerManager._check_mutual_exclusion` (`scheduler_manager.py`
lines 476-511): only `start` actions on the exclusive pair are checked;
the start is rejected exactly when the consulted status reports the
*other* member of the pair as active. -/
def check_mutual_exclusion (m : ManagerState) (scheduler_type action : String) :
    Bool × Option String × Option String :=
  if action ≠ "start" then (true, none, none)
  else if scheduler_type ∉ ["continuous", "single_pass"] then (true, none, none)
  else
    match active_scheduler m with
    | some current_running =>
      if current_running ≠ scheduler_type then
        (false, some (mutex_error_msg scheduler_type current_running),
         some current_running)
      else (true, none, none)
    | none => (true, none, none)

/-- `SchedulerManager.start_continuous` (`scheduler_manager.py` lines
266-300): run the mutual-exclusion check and raise `ValueError` with the
conflict message — touching no state — when it refuses; otherwise create
the engine instance if absent (a fresh instance is not yet running) and
register a live task under the key `"continuous"`. -/
def start_continuous (m : ManagerState) : ManagerState × Except String Unit :=
  let r := check_mutual_exclusion m "continuous" "start"
  if r.1 = false then (m, Except.error (r.2.1.getD ""))
  else
    let m1 := if m.continuousRunning = none
              then { m with continuousRunning := some false } else m
    ({ m1 with tasks := setAssoc "continuous" false m1.tasks }, Except.ok ())

/-- `SchedulerManager.start_single_pass` (`scheduler_manager.py` lines
327-360), mirror image of `start_continuous`. -/
def start_single_pass (m : ManagerState) : ManagerState × Except String Unit :=
  let r := check_mutual_exclusion m "single_pass" "start"
  if r.1 = false then (m, Except.error (r.2.1.getD ""))
  else
    let m1 := if m.singlePassRunning = none
              then { m with singlePassRunning := some false } else m
    ({ m1 with tasks := setAssoc "single_pass" false m1.tasks }, Except.ok ())

/-- C1: before starting `continuous` or `single_pass`, the manager
consults the mutual-exclusion status (live task table first, then each
engine's own `is_running` flag); when the status reports the *other*
member of the pair as active, the start raises the descriptive conflict
error and performs no state change — the whole manager state, and in
particular the requested engine's task-table entry, is exactly as
before (so an absent entry stays absent). -/
theorem start_mutual_exclusion (m : ManagerState) :
    (active_scheduler m = some "single_pass" →
      start_continuous m
          = (m, Except.error (mutex_error_msg "continuous" "single_pass"))
        ∧ getAssoc "continuous" (start_continuous m).1.tasks
            = getAssoc "continuous" m.tasks)
      ∧ (active_scheduler m = some "continuous" →
        start_single_pass m
            = (m, Except.error (mutex_error_msg "single_pass" "continuous"))
          ∧ getAssoc "single_pass" (start_single_pass m).1.tasks
              = getAssoc "single_pass" m.tasks) := by
  constructor
  · intro h
    have hc : check_mutual_exclusion m "continuous" "start"
        = (false, some (mutex_error_msg "continuous" "single_pass"),
           some "single_pass") := by
      unfold check_mutual_exclusion
      rw [h]
      rfl
    have heq : start_continuous m
        = (m, Except.error (mutex_error_msg "continuous" "single_pass")) := by
      unfold start_continuous
      rw [hc]
      rfl
    exact ⟨heq, by rw [heq]⟩
  · intro h
    have hc : check_mutual_exclusion m "single_pass" "start"
        = (false, some (mutex_error_msg "single_pass" "continuous"),
           some "continuous") := by
      unfold check_mutual_exclusion
      rw [h]
      rfl
    have heq : start_single_pass m
        = (m, Except.error (mutex_error_msg "single_pass" "continuous")) := by
      unfold start_single_pass
      rw [hc]
      rfl
    exact ⟨heq, by rw [heq]⟩

/-- A manager whose `single_pass` engine is running via a live task in
the task registry (no engine flags set). -/
def mgrW1 : ManagerState :=
  { tasks := [("single_pass", false)], continuousRunning := none,
    singlePassRunning := none }

/-- A manager whose `continuous` engine is running via the engine's own
`is_running` flag (no live tasks). -/
def mgrW2 : ManagerState :=
  { tasks := [], continuousRunning := some true, singlePassRunning := none }

/-- Witness for C1 at concrete inputs, exercising both consulted
indicators: on `mgrW1` (live `single_pass` task) `start_continuous` is
refused with the conflict error and its task-table entry stays absent; on
`mgrW2` (`continuous` running flag) `start_single_pass` is refused. -/
theorem start_mutual_exclusion_witness :
    (start_continuous mgrW1).2
        = Except.error (mutex_error_msg "continuous" "single_pass")
      ∧ getAssoc "continuous" (start_continuous mgrW1).1.tasks = none
      ∧ (start_single_pass mgrW2).2
          = Except.error (mutex_error_msg "single_pass" "continuous") := by
  have h1 := (start_mutual_exclusion mgrW1).1 (by decide)
  have h2 := (start_mutual_exclusion mgrW2).2 (by decide)
  refine ⟨?_, ?_, ?_⟩
  · rw [h1.1]
  · rw [h1.2]; rfl
  · rw [h2.1]

/-- Behaviour of the outbound publisher
(`TelegramPublisher.publish_digest`) on one attempt: it raises, or it
returns a boolean success flag. -/
inductive PublishBehavior where
  | raises
  | returns (success : Bool)
  deriving Repr, DecidableEq

/-- Behaviour of the collaborators during one attempt of the retry loop:
digest creation raises, digest creation yields no data / no news items
(clean no-op abort), or a digest with the given news ids is created and
its publication behaves as described. -/
inductive AttemptStep where
  | createRaises
  | createEmpty
  | created (news_ids : List Nat) (publish : PublishBehavior)
  deriving Repr, DecidableEq

/-- Observable collaborator events of one `execute_digest_with_retry`
run: a call to the outbound publisher, a `mark_as_used` call, and the
retry-delay sleep. -/
inductive DigestEv where
  | publishAttempt (news_ids : List Nat)
  | markUsed (news_ids : List Nat)
  | sleepRetry (seconds : Nat)
  deriving Repr, DecidableEq

/-- `self.max_retries` of `DigestScheduler` (`digest_scheduler.py`
line 35). -/
def max_retries : Nat := 3

/-- `self.retry_delay` of `DigestScheduler` (`digest_scheduler.py`
line 36): 300 seconds. -/
def retry_delay : Nat := 300

/-- The `for attempt in range(self.max_retries)` loop of
`DigestScheduler.execute_digest_with_retry` (`digest_scheduler.py` lines
173-217), as the list of collaborator events it emits.  `env attempt`
says what the collaborators do on that attempt; `remaining` is
`max_retries - attempt`.  An exception (from creation or publication)
sleeps `retry_delay` and moves to the next attempt unless this was the
final attempt; an empty digest returns immediately; after a publish that
*returns* (whether `True` or `False`) the method returns — `mark_as_used`
is called only under `if success:`, i.e. only after a publish that
returned `True`. -/
def digest_attempts (env : Nat → AttemptStep) (attempt : Nat) :
    Nat → List DigestEv
  | 0 => []
  | remaining + 1 =>
    match env attempt with
    | .createRaises =>
      if remaining = 0 then []
      else DigestEv.sleepRetry retry_delay :: digest_attempts env (attempt + 1) remaining
    | .createEmpty => []
    | .created news_ids publish =>
      DigestEv.publishAttempt news_ids ::
        match publish with
        | .raises =>
          if remaining = 0 then []
          else DigestEv.sleepRetry retry_delay :: digest_attempts env (attempt + 1) remaining
        | .returns true => [DigestEv.markUsed news_ids]
        | .returns false => []

/-- The single-flight state of `DigestScheduler`: the `is_processing`
flag (`digest_scheduler.py` line 39). -/
structure DigestState where
  is_processing : Bool
  deriving Repr, DecidableEq

/-- Lines 165-170 of `execute_digest_with_retry`: the single-flight guard
and the flag assignment.  These lines contain no `await`, so on the
single-threaded event loop they execute atomically before the run's first
suspension point: a call on a busy instance is dropped (warning only), an
admitted call flips the flag to `True` before anything else runs. -/
def digest_entry (s : DigestState) : Bool × DigestState :=
  if s.is_processing then (false, s)
  else (true, { is_processing := true })

/-- `DigestScheduler.execute_digest_with_retry` (`digest_scheduler.py`
lines 157-217) in full: entry guard, then the retry loop; `is_processing`
is reset to `False` on every exit path.  Returns the final state and the
collaborator events of the call. -/
def execute_digest_with_retry (env : Nat → AttemptStep) (s : DigestState) :
    DigestState × List DigestEv :=
  let e := digest_entry s
  if e.1 then ({ is_processing := false }, digest_attempts env 0 max_retries)
  else (e.2, [])

/-- Number of outbound publish attempts in an event trace. -/
def countPublish (evs : List DigestEv) : Nat :=
  (evs.filter (fun ev => match ev with
    | DigestEv.publishAttempt _ => true
    | _ => false)).length

/-- Number of `mark_as_used` calls in an event trace. -/
def countMark (evs : List DigestEv) : Nat :=
  (evs.filter (fun ev => match ev with
    | DigestEv.markUsed _ => true
    | _ => false)).length

/-- Number of retry-delay sleeps in an event trace. -/
def countSleep (evs : List DigestEv) : Nat :=
  (evs.filter (fun ev => match ev with
    | DigestEv.sleepRetry _ => true
    | _ => false)).length

/-- C2: the publication scheduler is single-flight.  On an idle instance
a call first flips `is_processing` to `True` (before its first suspension
point); a second call arriving while the first is still in flight sees
the flag, is dropped with only a warning — it changes no state, emits no
events, and is never queued; and when the first call's publish succeeds
on its first attempt, the pair of calls performs exactly one actual
publish attempt (the dropped call contributes none). -/
theorem digest_single_flight (s : DigestState) (env env2 : Nat → AttemptStep)
    (news_ids : List Nat)
    (hidle : s.is_processing = false)
    (henv : env 0 = AttemptStep.created news_ids (PublishBehavior.returns true)) :
    (digest_entry s).2.is_processing = true
      ∧ execute_digest_with_retry env2 (digest_entry s).2 = ((digest_entry s).2, [])
      ∧ countPublish (execute_digest_with_retry env s).2 = 1 := by
  refine ⟨by simp [digest_entry, hidle], ?_, ?_⟩
  · simp [execute_digest_with_retry, digest_entry, hidle]
  · simp [execute_digest_with_retry, digest_entry, hidle, max_retries,
      digest_attempts, henv, countPublish]

/-- The environment in which digest creation always succeeds with items
`[1, 2]` and every publish attempt returns `True`. -/
def envC2 : Nat → AttemptStep :=
  fun _ => AttemptStep.created [1, 2] (PublishBehavior.returns true)

/-- Witness for C2 at a concrete input: from the idle state, the admitted
call sets the flag, a call on the busy instance is dropped with no events
and no state change, and exactly one publish attempt happens. -/
theorem digest_single_flight_witness :
    (digest_entry ⟨false⟩).2.is_processing = true
      ∧ execute_digest_with_retry envC2 (digest_entry ⟨false⟩).2
          = ((digest_entry ⟨false⟩).2, [])
      ∧ countPublish (execute_digest_with_retry envC2 ⟨false⟩).2 = 1 :=
  digest_single_flight ⟨false⟩ envC2 envC2 [1, 2] rfl rfl

/-- The environment in which every publish attempt returns `False`
(an unsuccessful result, not an exception). -/
def envPubFalse : Nat → AttemptStep :=
  fun _ => AttemptStep.created [7] (PublishBehavior.returns false)

/-- C3 counterexample: when the publish step returns an unsuccessful
result (`False`) instead of raising, the run does NOT wait the retry
delay and does NOT retry: it performs exactly one publish attempt, zero
retry sleeps, never calls `mark_as_used`, and returns (the code retries
only on exceptions; a `False` return falls through the `if success:`
block, is even logged as processed, and the method returns). -/
theorem digest_retry_cex :
    countPublish (execute_digest_with_retry envPubFalse ⟨false⟩).2 = 1
      ∧ countSleep (execute_digest_with_retry envPubFalse ⟨false⟩).2 = 0
      ∧ countMark (execute_digest_with_retry envPubFalse ⟨false⟩).2 = 0 := by
  decide

/-- C3 (amended): within one run of `execute_digest_with_retry`, when the
publish step (or digest creation) RAISES, the run waits the fixed retry
delay of 300 seconds and retries, up to the maximum of 3 attempts, and
`mark_as_used` is called exactly once, only after the successful publish:
a run whose publish raises on the first two attempts and returns `True`
on the third emits exactly the trace publish, sleep 300, publish,
sleep 300, publish, markUsed — three publish attempts, one mark-used call
placed after the last publish.  (A publish that returns `False` without
raising ends the run with no retry and no mark-used call.) -/
theorem digest_retry_on_exception (env : Nat → AttemptStep) (news_ids : List Nat)
    (h0 : env 0 = AttemptStep.created news_ids PublishBehavior.raises)
    (h1 : env 1 = AttemptStep.created news_ids PublishBehavior.raises)
    (h2 : env 2 = AttemptStep.created news_ids (PublishBehavior.returns true)) :
    (execute_digest_with_retry env ⟨false⟩).2
        = [DigestEv.publishAttempt news_ids, DigestEv.sleepRetry 300,
           DigestEv.publishAttempt news_ids, DigestEv.sleepRetry 300,
           DigestEv.publishAttempt news_ids, DigestEv.markUsed news_ids]
      ∧ countMark (execute_digest_with_retry env ⟨false⟩).2 = 1
      ∧ countPublish (execute_digest_with_retry env ⟨false⟩).2 = 3 := by
  have htrace : (execute_digest_with_retry env ⟨false⟩).2
      = [DigestEv.publishAttempt news_ids, DigestEv.sleepRetry 300,
         DigestEv.publishAttempt news_ids, DigestEv.sleepRetry 300,
         DigestEv.publishAttempt news_ids, DigestEv.markUsed news_ids] := by
    simp [execute_digest_with_retry, digest_entry, max_retries, retry_delay,
      digest_attempts, h0, h1, h2]
  refine ⟨htrace, ?_, ?_⟩ <;> rw [htrace] <;> rfl

/-- An environment whose publish raises on the first two attempts and
returns `True` on the third. -/
def envC3 : Nat → AttemptStep :=
  fun attempt =>
    if attempt ≤ 1 then AttemptStep.created [7] PublishBehavior.raises
    else AttemptStep.created [7] (PublishBehavior.returns true)

/-- Witness for C3 (amended) at the concrete environment `envC3`. -/
theorem digest_retry_on_exception_witness :
    (execute_digest_with_retry envC3 ⟨false⟩).2
      = [DigestEv.publishAttempt [7], DigestEv.sleepRetry 300,
         DigestEv.publishAttempt [7], DigestEv.sleepRetry 300,
         DigestEv.publishAttempt [7], DigestEv.markUsed [7]] :=
  (digest_retry_on_exception envC3 [7] rfl rfl rfl).1
